import Mathlib

/-!
# Shallow embedding of the toy warehouse management system (src/core.py)

The source keeps two in-memory pandas DataFrames:
  * `df_transactions` — the append-only transaction journal, columns
    日期 (date), 出入库 (direction), 物品 (item), 发送方(接收方) (counterparty),
    经办人 (operator), 备注 (remarks).  Note: there is NO quantity column.
  * `df_inventory` — the stock table, columns 最后改变时间 (last update),
    物品 (item), 在库数量 (quantity).
plus two global lists `undo_stack` and `redo_stack` of deep copies of the
pair `(df_transactions, df_inventory)`.

Timestamps (`datetime.now()`) are modelled as a `Nat` parameter threaded
into each operation.  File persistence (`save_transactions`,
`save_inventory`) mirrors the in-memory tables and carries no extra state,
so it is not modelled separately; `log_files` (the archive step) is
modelled as recording the current table pair in an `archive_log` field.
Python list `append`/`pop` act at the same end; here the head of a Lean
list is the top of the stack.
-/

namespace WMS

/-- One row of `df_inventory`: 最后改变时间, 物品, 在库数量.
`在库数量` is read with `int(...)` in the source, hence `Int`. -/
structure InvEntry where
  lastUpdate : Nat
  item : String
  quantity : Int
deriving DecidableEq, Repr

/-- One row of `df_transactions` (the `record` dict built in
`add_inbound` / `add_outbound`): 日期, 出入库, 物品, 发送方(接收方),
经办人, 备注.  The source records no quantity in the journal. -/
structure TransRecord where
  date : Nat
  transType : String
  item : String
  senderReceiver : String
  operator : String
  remarks : String
deriving DecidableEq, Repr

/-- Result messages of `update_inventory`.  The source returns Python
strings; each constructor stands for one distinct literal:
  * `negStock item` — "Error: 出库操作导致物品 item 库存为负！"
  * `noItem item` — "Error: 物品 item 不存在于库存中，无法出库！"
  * `updated` — "库存已更新。" -/
inductive UpdateMsg where
  | negStock (item : String)
  | noItem (item : String)
  | updated
deriving DecidableEq, Repr

/-- `update_inventory(item, transaction_type, quantity)` from src/core.py,
as a function of the inventory table.  The source looks up the FIRST row
whose 物品 equals `item` (`df_inventory.index[...][0]`); on 入库 it adds
(creating a new row at the end when the item is unseen), otherwise it
subtracts and rejects a negative result before mutating.  It returns the
`(success, message)` pair of the source together with the new table
(the source mutates the global `df_inventory` in place). -/
def update_inventory (item transaction_type : String) (quantity : Int)
    (now : Nat) : List InvEntry → (Bool × UpdateMsg) × List InvEntry
  | [] =>
    if transaction_type = "入库" then
      ((true, UpdateMsg.updated), [⟨now, item, quantity⟩])
    else
      ((false, UpdateMsg.noItem item), [])
  | e :: rest =>
    if e.item = item then
      if transaction_type = "入库" then
        ((true, UpdateMsg.updated),
          { e with lastUpdate := now, quantity := e.quantity + quantity } :: rest)
      else
        if e.quantity - quantity < 0 then
          ((false, UpdateMsg.negStock item), e :: rest)
        else
          ((true, UpdateMsg.updated),
            { e with lastUpdate := now, quantity := e.quantity - quantity } :: rest)
    else
      let r := update_inventory item transaction_type quantity now rest
      (r.1, e :: r.2)

/-- The full mutable state of the source module: the two tables, the two
undo/redo stacks of `(df_transactions, df_inventory)` deep copies, and the
sequence of archive copies taken by `log_files`. -/
structure WMSState where
  df_transactions : List TransRecord
  df_inventory : List InvEntry
  undo_stack : List (List TransRecord × List InvEntry)
  redo_stack : List (List TransRecord × List InvEntry)
  archive_log : List (List TransRecord × List InvEntry)
deriving DecidableEq, Repr

/-- The state at module start with fresh (empty) CSV files. -/
def initState : WMSState := ⟨[], [], [], [], []⟩

/-- Return messages of the transaction / undo / redo entry points.  Each
constructor stands for one distinct string returned by the source:
  * `inboundOk` — "入库交易记录成功。"
  * `outboundOk` — "出库交易记录成功。"
  * `updErr m` — the `update_inventory` error message forwarded verbatim
  * `undoOk` / `redoOk` — "撤销成功。" / "重做成功。"
  * `noUndoHistory` — "无法撤销操作，没有历史记录。"
  * `noRedoHistory` — "无法重做操作，没有重做记录。" -/
inductive Msg where
  | inboundOk
  | outboundOk
  | updErr (m : UpdateMsg)
  | undoOk
  | redoOk
  | noUndoHistory
  | noRedoHistory
deriving DecidableEq, Repr

/-- `process_image(file_obj)`: returns `""` for no attachment, else the
destination path `os.path.join(DATA_DIR, filename)` of the saved copy. -/
def process_image (image : Option String) : String :=
  match image with
  | none => ""
  | some filename => "./data/" ++ filename

/-- `add_inbound(item, sender_receiver, operator, remarks, quantity, image)`:
archives the CSVs (`log_files`), pushes a deep copy of the current state
onto `undo_stack`, clears `redo_stack`, then builds the record (appending
the image path to the remarks when present) and calls `update_inventory`.
On ledger failure it returns the error message (the pushed undo snapshot
stays on the stack); on success it appends the record to the journal. -/
def add_inbound (item sender_receiver operator remarks : String)
    (quantity : Int) (image : Option String) (now : Nat) (s : WMSState) :
    Msg × WMSState :=
  let snap := (s.df_transactions, s.df_inventory)
  let transaction_type := "入库"
  let image_path := process_image image
  let remarks2 := if image_path = "" then remarks
                  else remarks ++ " || image:" ++ image_path
  let record : TransRecord :=
    ⟨now, transaction_type, item, sender_receiver, operator, remarks2⟩
  let r := update_inventory item transaction_type quantity now s.df_inventory
  if r.1.1 then
    (Msg.inboundOk,
      { df_transactions := s.df_transactions ++ [record]
        df_inventory := r.2
        undo_stack := snap :: s.undo_stack
        redo_stack := []
        archive_log := snap :: s.archive_log })
  else
    (Msg.updErr r.1.2,
      { df_transactions := s.df_transactions
        df_inventory := r.2
        undo_stack := snap :: s.undo_stack
        redo_stack := []
        archive_log := snap :: s.archive_log })

/-- `add_outbound(...)`: same shape as `add_inbound` with
`transaction_type = "出库"`; the ledger may reject with `UnknownItem` or
`InsufficientStock`, in which case the journal is not appended. -/
def add_outbound (item sender_receiver operator remarks : String)
    (quantity : Int) (image : Option String) (now : Nat) (s : WMSState) :
    Msg × WMSState :=
  let snap := (s.df_transactions, s.df_inventory)
  let transaction_type := "出库"
  let image_path := process_image image
  let remarks2 := if image_path = "" then remarks
                  else remarks ++ " || image:" ++ image_path
  let record : TransRecord :=
    ⟨now, transaction_type, item, sender_receiver, operator, remarks2⟩
  let r := update_inventory item transaction_type quantity now s.df_inventory
  if r.1.1 then
    (Msg.outboundOk,
      { df_transactions := s.df_transactions ++ [record]
        df_inventory := r.2
        undo_stack := snap :: s.undo_stack
        redo_stack := []
        archive_log := snap :: s.archive_log })
  else
    (Msg.updErr r.1.2,
      { df_transactions := s.df_transactions
        df_inventory := r.2
        undo_stack := snap :: s.undo_stack
        redo_stack := []
        archive_log := snap :: s.archive_log })

/-- `undo_action()`: with an empty undo stack, returns the no-history
message and changes nothing; otherwise pushes the current table pair onto
`redo_stack`, pops the top of `undo_stack` and makes it current. -/
def undo_action (s : WMSState) : Msg × WMSState :=
  match s.undo_stack with
  | [] => (Msg.noUndoHistory, s)
  | state :: rest =>
    (Msg.undoOk,
      { df_transactions := state.1
        df_inventory := state.2
        undo_stack := rest
        redo_stack := (s.df_transactions, s.df_inventory) :: s.redo_stack
        archive_log := s.archive_log })

/-- `redo_action()`: mirror image of `undo_action` with the two stacks
swapped. -/
def redo_action (s : WMSState) : Msg × WMSState :=
  match s.redo_stack with
  | [] => (Msg.noRedoHistory, s)
  | state :: rest =>
    (Msg.redoOk,
      { df_transactions := state.1
        df_inventory := state.2
        undo_stack := (s.df_transactions, s.df_inventory) :: s.undo_stack
        redo_stack := rest
        archive_log := s.archive_log })

/-- One user-level request against the module: the four mutating entry
points wired to the UI buttons. -/
inductive Op where
  | inbound (item sender_receiver operator remarks : String)
      (quantity : Int) (image : Option String) (now : Nat)
  | outbound (item sender_receiver operator remarks : String)
      (quantity : Int) (image : Option String) (now : Nat)
  | undo
  | redo
deriving DecidableEq, Repr

/-- Dispatch one request, returning the status message and the new state. -/
def stepOp (s : WMSState) : Op → Msg × WMSState
  | Op.inbound item sr operator remarks q img now =>
    add_inbound item sr operator remarks q img now s
  | Op.outbound item sr operator remarks q img now =>
    add_outbound item sr operator remarks q img now s
  | Op.undo => undo_action s
  | Op.redo => redo_action s

/-- The state after one request, discarding the message. -/
def applyOp (s : WMSState) (op : Op) : WMSState := (stepOp s op).2

/-- Run a sequence of requests. -/
def runOps (s : WMSState) (ops : List Op) : WMSState := ops.foldl applyOp s

/-- Whether a message reports success. -/
def Msg.isOk : Msg → Bool
  | Msg.inboundOk => true
  | Msg.outboundOk => true
  | Msg.undoOk => true
  | Msg.redoOk => true
  | _ => false

/-- Whether a request is an inbound/outbound transaction (not undo/redo). -/
def Op.isTxn : Op → Bool
  | Op.inbound _ _ _ _ _ _ _ => true
  | Op.outbound _ _ _ _ _ _ _ => true
  | _ => false

/-- The request's quantity is a positive integer (trivially true for
undo/redo, which carry no quantity). -/
def Op.posQty : Op → Prop
  | Op.inbound _ _ _ _ q _ _ => 0 < q
  | Op.outbound _ _ _ _ q _ _ => 0 < q
  | _ => True

instance (op : Op) : Decidable op.posQty :=
  match op with
  | Op.inbound _ _ _ _ q _ _ => inferInstanceAs (Decidable (0 < q))
  | Op.outbound _ _ _ _ q _ _ => inferInstanceAs (Decidable (0 < q))
  | Op.undo => inferInstanceAs (Decidable True)
  | Op.redo => inferInstanceAs (Decidable True)

/-- Every request in the sequence, run in order from `s`, returns a
success message (each transaction commits, each undo/redo finds history). -/
def allCommitted (s : WMSState) : List Op → Bool
  | [] => true
  | op :: rest => (stepOp s op).1.isOk && allCommitted (stepOp s op).2 rest

/-- The stock table's current quantity for an item: the quantity of the
first row for the item, `0` when the item has no row. -/
def stockOf (inv : List InvEntry) (item : String) : Int :=
  match inv.find? (fun e => e.item = item) with
  | some e => e.quantity
  | none => 0

/-- Whether the item has a row in the stock table
(`item in df_inventory["物品"].values`). -/
def hasItem (inv : List InvEntry) (item : String) : Bool :=
  (inv.find? (fun e => e.item = item)).isSome

/-- Net signed quantity of a request sequence for one item: inbound
quantities count positively, outbound quantities negatively. -/
def netQty (item : String) : List Op → Int
  | [] => 0
  | Op.inbound i _ _ _ q _ _ :: rest =>
    (if i = item then q else 0) + netQty item rest
  | Op.outbound i _ _ _ q _ _ :: rest =>
    (if i = item then -q else 0) + netQty item rest
  | _ :: rest => netQty item rest

/-- All quantities in a stock table are nonnegative. -/
def invNonneg (inv : List InvEntry) : Prop := ∀ e ∈ inv, 0 ≤ e.quantity

/-- Nonnegativity of the live stock table and of every stock snapshot held
on the undo and redo stacks. -/
def stateNonneg (s : WMSState) : Prop :=
  invNonneg s.df_inventory ∧
  (∀ p ∈ s.undo_stack, invNonneg p.2) ∧
  (∀ p ∈ s.redo_stack, invNonneg p.2)

theorem sanity_example_stock :
    stockOf (runOps initState
      [Op.inbound "widget" "s" "o" "r" 10 none 0,
       Op.outbound "widget" "r" "o" "r" 4 none 1]).df_inventory "widget" = 6 := by
  decide

theorem sanity_example_reject :
    (stepOp (runOps initState
      [Op.inbound "widget" "s" "o" "r" 10 none 0,
       Op.outbound "widget" "r" "o" "r" 4 none 1])
      (Op.outbound "widget" "r" "o" "r" 100 none 2)).1 =
      Msg.updErr (UpdateMsg.negStock "widget") := by
  decide

/-! ## Helper lemmas about `update_inventory` -/

theorem update_inventory_fail_inv (item t : String) (q : Int) (now : Nat)
    (inv : List InvEntry) (h : (update_inventory item t q now inv).1.1 = false) :
    (update_inventory item t q now inv).2 = inv := by
  induction inv with
  | nil =>
    simp only [update_inventory] at h ⊢
    split_ifs at h ⊢
    simp_all
  | cons e rest ih =>
    simp only [update_inventory] at h ⊢
    split_ifs at h ⊢ <;> simp_all

theorem update_inventory_inbound_ok (item : String) (q : Int) (now : Nat)
    (inv : List InvEntry) :
    (update_inventory item "入库" q now inv).1 = (true, UpdateMsg.updated) := by
  induction inv with
  | nil => simp [update_inventory]
  | cons e rest ih =>
    by_cases he : e.item = item <;> simp [update_inventory, he, ih]

theorem update_inventory_unknown (item : String) (q : Int) (now : Nat)
    (inv : List InvEntry) (h : inv.find? (fun e => e.item = item) = none) :
    update_inventory item "出库" q now inv = ((false, UpdateMsg.noItem item), inv) := by
  induction inv with
  | nil => simp [update_inventory]
  | cons e rest ih =>
    by_cases he : e.item = item
    · exfalso
      simp [List.find?, he] at h
    · have h2 : rest.find? (fun x => x.item = item) = none := by
        simpa [List.find?, he] using h
      simp only [update_inventory, if_neg he]
      rw [ih h2]

theorem update_inventory_insufficient (item : String) (q : Int) (now : Nat)
    (inv : List InvEntry) (e : InvEntry)
    (hfind : inv.find? (fun x => x.item = item) = some e)
    (hq : e.quantity - q < 0) :
    update_inventory item "出库" q now inv = ((false, UpdateMsg.negStock item), inv) := by
  induction inv with
  | nil => simp at hfind
  | cons a rest ih =>
    by_cases ha : a.item = item
    · obtain rfl : a = e := by simpa [List.find?, ha] using hfind
      simp only [update_inventory, if_pos ha,
        if_neg (show ¬("出库" = "入库") by decide), if_pos hq]
    · have h2 : rest.find? (fun x => x.item = item) = some e := by
        simpa [List.find?, ha] using hfind
      simp only [update_inventory, if_neg ha]
      rw [ih h2]

theorem update_inventory_cons_miss (item t : String) (q : Int) (now : Nat)
    (e : InvEntry) (rest : List InvEntry) (he : ¬e.item = item) :
    update_inventory item t q now (e :: rest) =
      ((update_inventory item t q now rest).1,
        e :: (update_inventory item t q now rest).2) := by
  simp [update_inventory, he]

theorem stockOf_update_inbound (item : String) (q : Int) (now : Nat)
    (inv : List InvEntry) (it2 : String) :
    stockOf (update_inventory item "入库" q now inv).2 it2 =
      stockOf inv it2 + (if item = it2 then q else 0) := by
  induction inv with
  | nil =>
    by_cases hi : item = it2 <;>
      simp [update_inventory, stockOf, List.find?, hi]
  | cons e rest ih =>
    by_cases he : e.item = item
    · by_cases hi : e.item = it2
      · have hit : item = it2 := he ▸ hi
        simp [update_inventory, he, stockOf, List.find?, hi, hit]
      · have hit : ¬item = it2 := fun h => hi (he.trans h)
        simp [update_inventory, he, stockOf, List.find?, hi, hit]
    · rw [update_inventory_cons_miss item "入库" q now e rest he]
      by_cases hi : e.item = it2
      · have hit : ¬item = it2 := fun h => he (hi.trans h.symm)
        simp [stockOf, List.find?, hi, hit]
      · simp [stockOf, List.find?, hi] at ih ⊢
        exact ih

theorem stockOf_update_outbound (item : String) (q : Int) (now : Nat)
    (inv : List InvEntry) (it2 : String)
    (h : (update_inventory item "出库" q now inv).1.1 = true) :
    stockOf (update_inventory item "出库" q now inv).2 it2 =
      stockOf inv it2 - (if item = it2 then q else 0) := by
  induction inv with
  | nil => simp [update_inventory] at h
  | cons e rest ih =>
    by_cases he : e.item = item
    · by_cases hneg : e.quantity - q < 0
      · simp [update_inventory, he, hneg] at h
      · by_cases hi : e.item = it2
        · have hit : item = it2 := he ▸ hi
          simp [update_inventory, he, hneg, stockOf, List.find?, hi, hit]
        · have hit : ¬item = it2 := fun h2 => hi (he.trans h2)
          simp [update_inventory, he, hneg, stockOf, List.find?, hi, hit]
    · have h2 : (update_inventory item "出库" q now rest).1.1 = true := by
        simpa [update_inventory, he] using h
      rw [update_inventory_cons_miss item "出库" q now e rest he]
      by_cases hi : e.item = it2
      · have hit : ¬item = it2 := fun h3 => he (hi.trans h3.symm)
        simp [stockOf, List.find?, hi, hit]
      · simp [stockOf, List.find?, hi] at ih ⊢
        exact ih h2

theorem update_inventory_nonneg_in (item : String) (q : Int) (now : Nat)
    (inv : List InvEntry) (hq : 0 ≤ q)
    (hinv : ∀ e ∈ inv, 0 ≤ e.quantity) :
    ∀ e ∈ (update_inventory item "入库" q now inv).2, 0 ≤ e.quantity := by
  induction inv with
  | nil =>
    intro e he
    simp [update_inventory] at he
    simp [he, hq]
  | cons a rest ih =>
    have ha0 : 0 ≤ a.quantity := hinv a (List.mem_cons_self a rest)
    have hrest : ∀ e ∈ rest, 0 ≤ e.quantity :=
      fun e he => hinv e (List.mem_cons_of_mem a he)
    intro e he
    by_cases ha : a.item = item
    · simp [update_inventory, ha] at he
      rcases he with rfl | hm
    -- the updated head gets quantity `a.quantity + q`
      · simpa using add_nonneg ha0 hq
      · exact hrest e hm
    · simp [update_inventory, ha] at he
      rcases he with rfl | hm
      · exact ha0
      · exact ih hrest e hm

theorem update_inventory_nonneg_out (item : String) (q : Int) (now : Nat)
    (inv : List InvEntry)
    (hinv : ∀ e ∈ inv, 0 ≤ e.quantity) :
    ∀ e ∈ (update_inventory item "出库" q now inv).2, 0 ≤ e.quantity := by
  induction inv with
  | nil =>
    intro e he
    simp [update_inventory] at he
  | cons a rest ih =>
    have ha0 : 0 ≤ a.quantity := hinv a (List.mem_cons_self a rest)
    have hrest : ∀ e ∈ rest, 0 ≤ e.quantity :=
      fun e he => hinv e (List.mem_cons_of_mem a he)
    intro e he
    by_cases ha : a.item = item
    · by_cases hneg : a.quantity - q < 0
      · simp [update_inventory, ha, hneg] at he
        rcases he with rfl | hm
        · exact ha0
        · exact hrest e hm
      · simp [update_inventory, ha, hneg] at he
        rcases he with rfl | hm
        · simpa using le_of_not_lt (by simpa [sub_nonneg] using hneg)
        · exact hrest e hm
    · simp [update_inventory, ha] at he
      rcases he with rfl | hm
      · exact ha0
      · exact ih hrest e hm

/-! ## Helper lemmas about the transaction entry points -/

theorem add_outbound_eq_fail (item sr operator remarks : String) (q : Int)
    (img : Option String) (now : Nat) (s : WMSState)
    (h : (update_inventory item "出库" q now s.df_inventory).1.1 = false) :
    add_outbound item sr operator remarks q img now s =
      (Msg.updErr (update_inventory item "出库" q now s.df_inventory).1.2,
        { df_transactions := s.df_transactions
          df_inventory := s.df_inventory
          undo_stack := (s.df_transactions, s.df_inventory) :: s.undo_stack
          redo_stack := []
          archive_log := (s.df_transactions, s.df_inventory) :: s.archive_log }) := by
  have h2 := update_inventory_fail_inv item "出库" q now s.df_inventory h
  simp [add_outbound, h, h2]

theorem add_inbound_stacks (item sr operator remarks : String) (q : Int)
    (img : Option String) (now : Nat) (s : WMSState) :
    (add_inbound item sr operator remarks q img now s).2.undo_stack =
        (s.df_transactions, s.df_inventory) :: s.undo_stack ∧
    (add_inbound item sr operator remarks q img now s).2.redo_stack = [] ∧
    (add_inbound item sr operator remarks q img now s).2.archive_log =
        (s.df_transactions, s.df_inventory) :: s.archive_log := by
  simp only [add_inbound]
  split <;> exact ⟨rfl, rfl, rfl⟩

theorem add_outbound_stacks (item sr operator remarks : String) (q : Int)
    (img : Option String) (now : Nat) (s : WMSState) :
    (add_outbound item sr operator remarks q img now s).2.undo_stack =
        (s.df_transactions, s.df_inventory) :: s.undo_stack ∧
    (add_outbound item sr operator remarks q img now s).2.redo_stack = [] ∧
    (add_outbound item sr operator remarks q img now s).2.archive_log =
        (s.df_transactions, s.df_inventory) :: s.archive_log := by
  simp only [add_outbound]
  split <;> exact ⟨rfl, rfl, rfl⟩

theorem add_inbound_inventory (item sr operator remarks : String) (q : Int)
    (img : Option String) (now : Nat) (s : WMSState) :
    (add_inbound item sr operator remarks q img now s).2.df_inventory =
      (update_inventory item "入库" q now s.df_inventory).2 := by
  simp only [add_inbound]
  split <;> rfl

theorem add_outbound_inventory (item sr operator remarks : String) (q : Int)
    (img : Option String) (now : Nat) (s : WMSState) :
    (add_outbound item sr operator remarks q img now s).2.df_inventory =
      (update_inventory item "出库" q now s.df_inventory).2 := by
  simp only [add_outbound]
  split <;> rfl

theorem add_inbound_msg (item sr operator remarks : String) (q : Int)
    (img : Option String) (now : Nat) (s : WMSState) :
    (add_inbound item sr operator remarks q img now s).1 = Msg.inboundOk := by
  simp [add_inbound, update_inventory_inbound_ok]

theorem add_outbound_ok_iff (item sr operator remarks : String) (q : Int)
    (img : Option String) (now : Nat) (s : WMSState) :
    (add_outbound item sr operator remarks q img now s).1.isOk = true ↔
      (update_inventory item "出库" q now s.df_inventory).1.1 = true := by
  simp only [add_outbound]
  split <;> simp_all [Msg.isOk]

theorem add_inbound_journal (item sr operator remarks : String) (q : Int)
    (img : Option String) (now : Nat) (s : WMSState) :
    ∃ rec, (add_inbound item sr operator remarks q img now s).2.df_transactions =
      s.df_transactions ++ [rec] := by
  simp [add_inbound, update_inventory_inbound_ok]

theorem add_outbound_journal_ok (item sr operator remarks : String) (q : Int)
    (img : Option String) (now : Nat) (s : WMSState)
    (h : (update_inventory item "出库" q now s.df_inventory).1.1 = true) :
    ∃ rec, (add_outbound item sr operator remarks q img now s).2.df_transactions =
      s.df_transactions ++ [rec] := by
  simp [add_outbound, h]

theorem undo_action_cons (s : WMSState) (x : List TransRecord × List InvEntry)
    (rest : List (List TransRecord × List InvEntry)) (h : s.undo_stack = x :: rest) :
    undo_action s =
      (Msg.undoOk,
        { df_transactions := x.1
          df_inventory := x.2
          undo_stack := rest
          redo_stack := (s.df_transactions, s.df_inventory) :: s.redo_stack
          archive_log := s.archive_log }) := by
  simp only [undo_action, h]

theorem redo_action_cons (s : WMSState) (x : List TransRecord × List InvEntry)
    (rest : List (List TransRecord × List InvEntry)) (h : s.redo_stack = x :: rest) :
    redo_action s =
      (Msg.redoOk,
        { df_transactions := x.1
          df_inventory := x.2
          undo_stack := (s.df_transactions, s.df_inventory) :: s.undo_stack
          redo_stack := rest
          archive_log := s.archive_log }) := by
  simp only [redo_action, h]

theorem stepOp_txn_stacks (s : WMSState) (op : Op) (ht : op.isTxn = true) :
    (stepOp s op).2.undo_stack = (s.df_transactions, s.df_inventory) :: s.undo_stack ∧
    (stepOp s op).2.redo_stack = [] := by
  cases op with
  | inbound i sr o r q img n =>
    exact ⟨(add_inbound_stacks i sr o r q img n s).1,
      (add_inbound_stacks i sr o r q img n s).2.1⟩
  | outbound i sr o r q img n =>
    exact ⟨(add_outbound_stacks i sr o r q img n s).1,
      (add_outbound_stacks i sr o r q img n s).2.1⟩
  | undo => simp [Op.isTxn] at ht
  | redo => simp [Op.isTxn] at ht

theorem stepOp_txn_ok_journal (s : WMSState) (op : Op) (ht : op.isTxn = true)
    (hok : (stepOp s op).1.isOk = true) :
    ∃ rec, (stepOp s op).2.df_transactions = s.df_transactions ++ [rec] := by
  cases op with
  | inbound i sr o r q img n => exact add_inbound_journal i sr o r q img n s
  | outbound i sr o r q img n =>
    exact add_outbound_journal_ok i sr o r q img n s
      ((add_outbound_ok_iff i sr o r q img n s).mp hok)
  | undo => simp [Op.isTxn] at ht
  | redo => simp [Op.isTxn] at ht

/-! ## Lemmas about request sequences -/

theorem runOps_cons (s : WMSState) (op : Op) (ops : List Op) :
    runOps s (op :: ops) = runOps (applyOp s op) ops := rfl

theorem runOps_append (s : WMSState) (l1 l2 : List Op) :
    runOps s (l1 ++ l2) = runOps (runOps s l1) l2 :=
  List.foldl_append applyOp s l1 l2

theorem allCommitted_append (s : WMSState) (l1 l2 : List Op) :
    allCommitted s (l1 ++ l2) =
      (allCommitted s l1 && allCommitted (runOps s l1) l2) := by
  induction l1 generalizing s with
  | nil => simp [allCommitted, runOps]
  | cons op rest ih =>
    calc allCommitted s ((op :: rest) ++ l2)
        = ((stepOp s op).1.isOk &&
            allCommitted (stepOp s op).2 (rest ++ l2)) := rfl
      _ = ((stepOp s op).1.isOk && (allCommitted (stepOp s op).2 rest &&
            allCommitted (runOps (stepOp s op).2 rest) l2)) := by rw [ih]
      _ = (allCommitted s (op :: rest) &&
            allCommitted (runOps s (op :: rest)) l2) := by
          rw [← Bool.and_assoc]
          exact rfl

theorem journal_len_runOps (ops : List Op) : ∀ s : WMSState,
    (∀ op ∈ ops, op.isTxn = true) → allCommitted s ops = true →
    (runOps s ops).df_transactions.length =
      s.df_transactions.length + ops.length := by
  induction ops with
  | nil => intro s _ _; simp [runOps]
  | cons op rest ih =>
    intro s ht hc
    simp only [allCommitted, Bool.and_eq_true] at hc
    obtain ⟨rec, hrec⟩ := stepOp_txn_ok_journal s op (ht op (by simp)) hc.1
    rw [runOps_cons, ih (applyOp s op) (fun o ho => ht o (by simp [ho])) hc.2]
    simp only [applyOp, hrec]
    simp [List.length_append]
    omega

theorem stockOf_step_txn (s : WMSState) (op : Op) (ht : op.isTxn = true)
    (hok : (stepOp s op).1.isOk = true) (item : String) :
    stockOf (applyOp s op).df_inventory item =
      stockOf s.df_inventory item + netQty item [op] := by
  cases op with
  | inbound i sr o r q img n =>
    simp only [applyOp, stepOp]
    rw [add_inbound_inventory, stockOf_update_inbound]
    simp [netQty]
  | outbound i sr o r q img n =>
    have hu := (add_outbound_ok_iff i sr o r q img n s).mp hok
    simp only [applyOp, stepOp]
    rw [add_outbound_inventory, stockOf_update_outbound _ _ _ _ _ hu]
    simp only [netQty]
    split_ifs <;> ring
  | undo => simp [Op.isTxn] at ht
  | redo => simp [Op.isTxn] at ht

theorem stockOf_runOps (ops : List Op) : ∀ s : WMSState,
    (∀ op ∈ ops, op.isTxn = true) → allCommitted s ops = true → ∀ item,
    stockOf (runOps s ops).df_inventory item =
      stockOf s.df_inventory item + netQty item ops := by
  induction ops with
  | nil => intro s _ _ item; simp [runOps, netQty]
  | cons op rest ih =>
    intro s ht hc item
    simp only [allCommitted, Bool.and_eq_true] at hc
    rw [runOps_cons, ih (applyOp s op) (fun o ho => ht o (by simp [ho])) hc.2 item,
      stockOf_step_txn s op (ht op (by simp)) hc.1 item]
    cases op <;> simp [netQty] <;> ring

theorem stateNonneg_init : stateNonneg initState := by
  refine ⟨?_, ?_, ?_⟩ <;> intro p hp <;> simp [initState] at hp

theorem stateNonneg_step (s : WMSState) (op : Op) (hq : op.posQty)
    (h : stateNonneg s) : stateNonneg (applyOp s op) := by
  obtain ⟨h1, h2, h3⟩ := h
  cases op with
  | inbound i sr o r q img n =>
    have hqq : 0 < q := hq
    simp only [applyOp, stepOp]
    refine ⟨?_, ?_, ?_⟩
    · rw [add_inbound_inventory]
      exact update_inventory_nonneg_in i q n s.df_inventory hqq.le h1
    · rw [(add_inbound_stacks i sr o r q img n s).1]
      intro p hp
      rcases List.mem_cons.mp hp with rfl | hm
      · exact h1
      · exact h2 p hm
    · rw [(add_inbound_stacks i sr o r q img n s).2.1]
      intro p hp
      simp at hp
  | outbound i sr o r q img n =>
    simp only [applyOp, stepOp]
    refine ⟨?_, ?_, ?_⟩
    · rw [add_outbound_inventory]
      exact update_inventory_nonneg_out i q n s.df_inventory h1
    · rw [(add_outbound_stacks i sr o r q img n s).1]
      intro p hp
      rcases List.mem_cons.mp hp with rfl | hm
      · exact h1
      · exact h2 p hm
    · rw [(add_outbound_stacks i sr o r q img n s).2.1]
      intro p hp
      simp at hp
  | undo =>
    simp only [applyOp, stepOp]
    match hu : s.undo_stack with
    | [] =>
      rw [show undo_action s = (Msg.noUndoHistory, s) from by simp [undo_action, hu]]
      exact ⟨h1, h2, h3⟩
    | x :: rest =>
      rw [undo_action_cons s x rest hu]
      refine ⟨h2 x (by rw [hu]; exact List.mem_cons_self x rest), ?_, ?_⟩
      · intro p hp
        exact h2 p (by rw [hu]; exact List.mem_cons_of_mem x hp)
      · intro p hp
        rcases List.mem_cons.mp hp with rfl | hm
        · exact h1
        · exact h3 p hm
  | redo =>
    simp only [applyOp, stepOp]
    match hr : s.redo_stack with
    | [] =>
      rw [show redo_action s = (Msg.noRedoHistory, s) from by simp [redo_action, hr]]
      exact ⟨h1, h2, h3⟩
    | x :: rest =>
      rw [redo_action_cons s x rest hr]
      refine ⟨h3 x (by rw [hr]; exact List.mem_cons_self x rest), ?_, ?_⟩
      · intro p hp
        rcases List.mem_cons.mp hp with rfl | hm
        · exact h1
        · exact h2 p hm
      · intro p hp
        exact h3 p (by rw [hr]; exact List.mem_cons_of_mem x hp)

theorem stateNonneg_runOps (ops : List Op) : ∀ s : WMSState,
    (∀ op ∈ ops, op.posQty) → stateNonneg s → stateNonneg (runOps s ops) := by
  induction ops with
  | nil => intro s _ h; exact h
  | cons op rest ih =>
    intro s hq h
    exact ih (applyOp s op) (fun o ho => hq o (by simp [ho]))
      (stateNonneg_step s op (hq op (by simp)) h)

theorem runOps_undo_top (s : WMSState) (l : List Op) (a : Op)
    (ht : a.isTxn = true) :
    (runOps s (l ++ [a])).undo_stack =
      ((runOps s l).df_transactions, (runOps s l).df_inventory) ::
        (runOps s l).undo_stack := by
  rw [runOps_append]
  exact (stepOp_txn_stacks (runOps s l) a ht).1

theorem outbound_insufficient_rejected (item sr operator remarks : String)
    (q : Int) (img : Option String) (now : Nat) (s : WMSState) (e : InvEntry)
    (hfind : s.df_inventory.find? (fun x => x.item = item) = some e)
    (hq : e.quantity < q) :
    (add_outbound item sr operator remarks q img now s).1 =
        Msg.updErr (UpdateMsg.negStock item) ∧
    (add_outbound item sr operator remarks q img now s).2.df_inventory =
        s.df_inventory ∧
    (add_outbound item sr operator remarks q img now s).2.df_transactions =
        s.df_transactions := by
  have hu := update_inventory_insufficient item q now s.df_inventory e hfind
    (by omega)
  have hf : (update_inventory item "出库" q now s.df_inventory).1.1 = false := by
    rw [hu]
  rw [add_outbound_eq_fail item sr operator remarks q img now s hf]
  refine ⟨?_, rfl, rfl⟩
  rw [hu]

theorem outbound_unknown_rejected (item sr operator remarks : String)
    (q : Int) (img : Option String) (now : Nat) (s : WMSState)
    (hfind : s.df_inventory.find? (fun x => x.item = item) = none) :
    (add_outbound item sr operator remarks q img now s).1 =
        Msg.updErr (UpdateMsg.noItem item) ∧
    (add_outbound item sr operator remarks q img now s).2.df_inventory =
        s.df_inventory ∧
    (add_outbound item sr operator remarks q img now s).2.df_transactions =
        s.df_transactions := by
  have hu := update_inventory_unknown item q now s.df_inventory hfind
  have hf : (update_inventory item "出库" q now s.df_inventory).1.1 = false := by
    rw [hu]
  rw [add_outbound_eq_fail item sr operator remarks q img now s hf]
  refine ⟨?_, rfl, rfl⟩
  rw [hu]

/-! ## The claims -/

/-- C1, as stated, fails on the code: journal entries record no quantity,
so the stock level is not a function of the journal at all.  Two committed
one-transaction histories (inbound of 5 vs. inbound of 7 of item "w")
produce byte-for-byte identical journals but different stock quantities,
so no reading of "sum of quantities recorded in the journal" can equal the
stock in both. -/
theorem C1_journal_does_not_determine_stock :
    allCommitted initState [Op.inbound "w" "s" "o" "r" 5 none 0] = true ∧
    allCommitted initState [Op.inbound "w" "s" "o" "r" 7 none 0] = true ∧
    (runOps initState [Op.inbound "w" "s" "o" "r" 5 none 0]).df_transactions =
      (runOps initState [Op.inbound "w" "s" "o" "r" 7 none 0]).df_transactions ∧
    stockOf (runOps initState
        [Op.inbound "w" "s" "o" "r" 5 none 0]).df_inventory "w" ≠
      stockOf (runOps initState
        [Op.inbound "w" "s" "o" "r" 7 none 0]).df_inventory "w" := by
  refine ⟨by decide, by decide, rfl, by decide⟩

/-- C1 (amended): for every sequence of committed inbound/outbound
transactions starting from the empty state, the stock quantity of each
item equals the sum of the inbound quantities minus the sum of the
outbound quantities of the committed REQUESTS for that item (the journal
itself does not record quantities). -/
theorem C1_stock_eq_net_of_committed (ops : List Op) (item : String)
    (ht : ∀ op ∈ ops, op.isTxn = true)
    (hc : allCommitted initState ops = true) :
    stockOf (runOps initState ops).df_inventory item = netQty item ops := by
  have h := stockOf_runOps ops initState ht hc item
  simpa [initState, stockOf] using h

theorem C1_stock_eq_net_of_committed_witness :
    ((∀ op ∈ [Op.inbound "widget" "s" "o" "r" 10 none 0,
               Op.outbound "widget" "r" "o" "r" 4 none 1],
        op.isTxn = true) ∧
      allCommitted initState
        [Op.inbound "widget" "s" "o" "r" 10 none 0,
         Op.outbound "widget" "r" "o" "r" 4 none 1] = true) ∧
    stockOf (runOps initState
        [Op.inbound "widget" "s" "o" "r" 10 none 0,
         Op.outbound "widget" "r" "o" "r" 4 none 1]).df_inventory "widget" =
      netQty "widget"
        [Op.inbound "widget" "s" "o" "r" 10 none 0,
         Op.outbound "widget" "r" "o" "r" 4 none 1] :=
  ⟨⟨by decide, by decide⟩,
    C1_stock_eq_net_of_committed _ "widget" (by decide) (by decide)⟩

/-- C2, as stated, fails on the code: after a failed ledger apply the
speculatively pushed undo snapshot is NOT popped back off, and the redo
stack has been cleared.  Concretely: commit one inbound, undo it (leaving
a nonempty redo stack and an empty undo stack), then request an outbound
of an unseen item "x"; the apply fails, yet the undo stack has gained an
entry and the redo stack has been emptied. -/
theorem C2_failed_apply_mutates_stacks :
    (add_outbound "x" "s" "o" "r" 1 none 2
        (undo_action (add_inbound "w" "s" "o" "r" 5 none 0 initState).2).2).1 =
      Msg.updErr (UpdateMsg.noItem "x") ∧
    (add_outbound "x" "s" "o" "r" 1 none 2
        (undo_action (add_inbound "w" "s" "o" "r" 5 none 0 initState).2).2).2.undo_stack ≠
      (undo_action (add_inbound "w" "s" "o" "r" 5 none 0 initState).2).2.undo_stack ∧
    (add_outbound "x" "s" "o" "r" 1 none 2
        (undo_action (add_inbound "w" "s" "o" "r" 5 none 0 initState).2).2).2.redo_stack ≠
      (undo_action (add_inbound "w" "s" "o" "r" 5 none 0 initState).2).2.redo_stack := by
  refine ⟨by decide, by decide, by decide⟩

/-- C2 (amended): on an outbound request whose ledger apply fails, the
journal and the stock table are exactly unchanged, but the pre-request
snapshot remains pushed on the undo stack (it is not popped back) and the
redo stack is left cleared.  (An inbound apply never fails, see
`C10_inbound_apply_total`.) -/
theorem C2_failed_apply_state (item sr operator remarks : String) (q : Int)
    (img : Option String) (now : Nat) (s : WMSState)
    (h : (update_inventory item "出库" q now s.df_inventory).1.1 = false) :
    (add_outbound item sr operator remarks q img now s).2.df_transactions =
        s.df_transactions ∧
    (add_outbound item sr operator remarks q img now s).2.df_inventory =
        s.df_inventory ∧
    (add_outbound item sr operator remarks q img now s).2.undo_stack =
        (s.df_transactions, s.df_inventory) :: s.undo_stack ∧
    (add_outbound item sr operator remarks q img now s).2.redo_stack = [] := by
  rw [add_outbound_eq_fail item sr operator remarks q img now s h]
  exact ⟨rfl, rfl, rfl, rfl⟩

theorem C2_failed_apply_state_witness :
    (update_inventory "x" "出库" 1 0 initState.df_inventory).1.1 = false ∧
    ((add_outbound "x" "s" "o" "r" 1 none 0 initState).2.df_transactions =
        initState.df_transactions ∧
      (add_outbound "x" "s" "o" "r" 1 none 0 initState).2.df_inventory =
        initState.df_inventory ∧
      (add_outbound "x" "s" "o" "r" 1 none 0 initState).2.undo_stack =
        (initState.df_transactions, initState.df_inventory) ::
          initState.undo_stack ∧
      (add_outbound "x" "s" "o" "r" 1 none 0 initState).2.redo_stack = []) :=
  ⟨by decide, C2_failed_apply_state "x" "s" "o" "r" 1 none 0 initState (by decide)⟩

/-- C3, as stated, fails on the code: no quantity validation exists.  An
inbound request with quantity −5 is not rejected: it succeeds, takes an
archive copy, pushes an undo snapshot, and mutates both the journal and
the stock table (which ends up with a negative quantity). -/
theorem C3_nonpositive_quantity_not_rejected :
    (add_inbound "w" "s" "o" "r" (-5) none 0 initState).1 = Msg.inboundOk ∧
    (add_inbound "w" "s" "o" "r" (-5) none 0 initState).2.df_transactions ≠
      initState.df_transactions ∧
    (add_inbound "w" "s" "o" "r" (-5) none 0 initState).2.df_inventory ≠
      initState.df_inventory ∧
    (add_inbound "w" "s" "o" "r" (-5) none 0 initState).2.undo_stack ≠
      initState.undo_stack ∧
    (add_inbound "w" "s" "o" "r" (-5) none 0 initState).2.archive_log ≠
      initState.archive_log := by
  refine ⟨by decide, by decide, by decide, by decide, by decide⟩

/-- C3 (amended): quantity is never validated.  A request whose quantity
is a non-positive integer is not rejected before its side effects: for
BOTH the inbound and the outbound entry point the archive copy is taken,
the undo snapshot is pushed and the redo stack is cleared; the inbound
request moreover always commits, appending one journal entry and
mutating the stock table. -/
theorem C3_nonpositive_quantity_processed (item sr operator remarks : String)
    (q : Int) (img : Option String) (now : Nat) (s : WMSState) (_hq : q ≤ 0) :
    ((add_inbound item sr operator remarks q img now s).1 = Msg.inboundOk ∧
      (add_inbound item sr operator remarks q img now s).2.undo_stack =
          (s.df_transactions, s.df_inventory) :: s.undo_stack ∧
      (add_inbound item sr operator remarks q img now s).2.archive_log =
          (s.df_transactions, s.df_inventory) :: s.archive_log ∧
      (add_inbound item sr operator remarks q img now s).2.redo_stack = [] ∧
      (add_inbound item sr operator remarks q img now s).2.df_transactions.length =
          s.df_transactions.length + 1) ∧
    ((add_outbound item sr operator remarks q img now s).2.undo_stack =
          (s.df_transactions, s.df_inventory) :: s.undo_stack ∧
      (add_outbound item sr operator remarks q img now s).2.archive_log =
          (s.df_transactions, s.df_inventory) :: s.archive_log ∧
      (add_outbound item sr operator remarks q img now s).2.redo_stack = []) := by
  obtain ⟨h1, h2, h3⟩ := add_inbound_stacks item sr operator remarks q img now s
  obtain ⟨g1, g2, g3⟩ := add_outbound_stacks item sr operator remarks q img now s
  obtain ⟨rec, hrec⟩ := add_inbound_journal item sr operator remarks q img now s
  exact ⟨⟨add_inbound_msg item sr operator remarks q img now s, h1, h3, h2,
    by simp [hrec]⟩, g1, g3, g2⟩

theorem C3_nonpositive_quantity_processed_witness :
    ((-5 : Int) ≤ 0) ∧
    (((add_inbound "w" "s" "o" "r" (-5) none 0 initState).1 = Msg.inboundOk ∧
      (add_inbound "w" "s" "o" "r" (-5) none 0 initState).2.undo_stack =
        (initState.df_transactions, initState.df_inventory) ::
          initState.undo_stack ∧
      (add_inbound "w" "s" "o" "r" (-5) none 0 initState).2.archive_log =
        (initState.df_transactions, initState.df_inventory) ::
          initState.archive_log ∧
      (add_inbound "w" "s" "o" "r" (-5) none 0 initState).2.redo_stack = [] ∧
      (add_inbound "w" "s" "o" "r" (-5) none 0 initState).2.df_transactions.length =
        initState.df_transactions.length + 1) ∧
     ((add_outbound "w" "s" "o" "r" (-5) none 0 initState).2.undo_stack =
        (initState.df_transactions, initState.df_inventory) ::
          initState.undo_stack ∧
      (add_outbound "w" "s" "o" "r" (-5) none 0 initState).2.archive_log =
        (initState.df_transactions, initState.df_inventory) ::
          initState.archive_log ∧
      (add_outbound "w" "s" "o" "r" (-5) none 0 initState).2.redo_stack = [])) :=
  ⟨by decide,
    C3_nonpositive_quantity_processed "w" "s" "o" "r" (-5) none 0 initState
      (by decide)⟩

/-- C4 (confirmed): an outbound request on an item present in the stock
table with quantity strictly greater than the current stock fails with
the insufficient-stock error, and both the stock table and the journal
are left exactly unchanged. -/
theorem C4_insufficient_stock_rejected (s : WMSState)
    (item sr operator remarks : String) (q : Int) (img : Option String)
    (now : Nat) (e : InvEntry)
    (hfind : s.df_inventory.find? (fun x => x.item = item) = some e)
    (hq : e.quantity < q) :
    (add_outbound item sr operator remarks q img now s).1 =
        Msg.updErr (UpdateMsg.negStock item) ∧
    (add_outbound item sr operator remarks q img now s).2.df_inventory =
        s.df_inventory ∧
    (add_outbound item sr operator remarks q img now s).2.df_transactions =
        s.df_transactions :=
  outbound_insufficient_rejected item sr operator remarks q img now s e hfind hq

theorem C4_insufficient_stock_rejected_witness :
    ((add_inbound "widget" "s" "o" "r" 10 none 0
          initState).2.df_inventory.find? (fun x => x.item = "widget") =
        some ⟨0, "widget", 10⟩ ∧ (10 : Int) < 100) ∧
    ((add_outbound "widget" "b" "o" "r" 100 none 1
          (add_inbound "widget" "s" "o" "r" 10 none 0 initState).2).1 =
        Msg.updErr (UpdateMsg.negStock "widget") ∧
      (add_outbound "widget" "b" "o" "r" 100 none 1
          (add_inbound "widget" "s" "o" "r" 10 none 0 initState).2).2.df_inventory =
        (add_inbound "widget" "s" "o" "r" 10 none 0 initState).2.df_inventory ∧
      (add_outbound "widget" "b" "o" "r" 100 none 1
          (add_inbound "widget" "s" "o" "r" 10 none 0 initState).2).2.df_transactions =
        (add_inbound "widget" "s" "o" "r" 10 none 0 initState).2.df_transactions) :=
  ⟨⟨by decide, by decide⟩,
    C4_insufficient_stock_rejected _ "widget" "b" "o" "r" 100 none 1
      ⟨0, "widget", 10⟩ (by decide) (by decide)⟩

/-- C5 (confirmed): an outbound request on an item with no row in the
stock table fails with the unknown-item error — a different error value
from the insufficient-stock one — and both the stock table and the
journal are left exactly unchanged. -/
theorem C5_unknown_item_rejected (s : WMSState)
    (item sr operator remarks : String) (q : Int) (img : Option String)
    (now : Nat)
    (hfind : s.df_inventory.find? (fun x => x.item = item) = none) :
    (add_outbound item sr operator remarks q img now s).1 =
        Msg.updErr (UpdateMsg.noItem item) ∧
    Msg.updErr (UpdateMsg.noItem item) ≠
        Msg.updErr (UpdateMsg.negStock item) ∧
    (add_outbound item sr operator remarks q img now s).2.df_inventory =
        s.df_inventory ∧
    (add_outbound item sr operator remarks q img now s).2.df_transactions =
        s.df_transactions := by
  obtain ⟨h1, h2, h3⟩ :=
    outbound_unknown_rejected item sr operator remarks q img now s hfind
  exact ⟨h1, by simp, h2, h3⟩

theorem C5_unknown_item_rejected_witness :
    (initState.df_inventory.find? (fun x => x.item = "ghost") = none) ∧
    ((add_outbound "ghost" "b" "o" "r" 3 none 0 initState).1 =
        Msg.updErr (UpdateMsg.noItem "ghost") ∧
      Msg.updErr (UpdateMsg.noItem "ghost") ≠
        Msg.updErr (UpdateMsg.negStock "ghost") ∧
      (add_outbound "ghost" "b" "o" "r" 3 none 0 initState).2.df_inventory =
        initState.df_inventory ∧
      (add_outbound "ghost" "b" "o" "r" 3 none 0 initState).2.df_transactions =
        initState.df_transactions) :=
  ⟨by decide,
    C5_unknown_item_rejected initState "ghost" "b" "o" "r" 3 none 0 (by decide)⟩

/-- C6 (confirmed): in every state reachable from the initial state by
inbound/outbound/undo/redo requests whose quantities are positive
integers, every stock-table row has quantity ≥ 0; moreover, at any such
state an outbound that would drive a present item's quantity negative
leaves both the stock table and the journal unmutated. -/
theorem C6_reachable_stock_nonneg (ops : List Op)
    (hq : ∀ op ∈ ops, op.posQty) :
    (∀ e ∈ (runOps initState ops).df_inventory, 0 ≤ e.quantity) ∧
    (∀ (item sr operator remarks : String) (q : Int) (img : Option String)
        (now : Nat) (e : InvEntry),
      (runOps initState ops).df_inventory.find? (fun x => x.item = item) =
        some e →
      e.quantity < q →
      (add_outbound item sr operator remarks q img now
          (runOps initState ops)).2.df_inventory =
        (runOps initState ops).df_inventory ∧
      (add_outbound item sr operator remarks q img now
          (runOps initState ops)).2.df_transactions =
        (runOps initState ops).df_transactions) := by
  refine ⟨(stateNonneg_runOps ops initState hq stateNonneg_init).1, ?_⟩
  intro item sr operator remarks q img now e hfind hlt
  obtain ⟨_, h2, h3⟩ := outbound_insufficient_rejected item sr operator remarks
    q img now (runOps initState ops) e hfind hlt
  exact ⟨h2, h3⟩

theorem C6_reachable_stock_nonneg_witness :
    (∀ op ∈ [Op.inbound "widget" "s" "o" "r" 10 none 0,
             Op.outbound "widget" "r" "o" "r" 4 none 1,
             Op.undo, Op.redo],
      op.posQty) ∧
    ((∀ e ∈ (runOps initState
          [Op.inbound "widget" "s" "o" "r" 10 none 0,
           Op.outbound "widget" "r" "o" "r" 4 none 1,
           Op.undo, Op.redo]).df_inventory, 0 ≤ e.quantity) ∧
      (∀ (item sr operator remarks : String) (q : Int) (img : Option String)
          (now : Nat) (e : InvEntry),
        (runOps initState
            [Op.inbound "widget" "s" "o" "r" 10 none 0,
             Op.outbound "widget" "r" "o" "r" 4 none 1,
             Op.undo, Op.redo]).df_inventory.find?
            (fun x => x.item = item) = some e →
        e.quantity < q →
        (add_outbound item sr operator remarks q img now
            (runOps initState
              [Op.inbound "widget" "s" "o" "r" 10 none 0,
               Op.outbound "widget" "r" "o" "r" 4 none 1,
               Op.undo, Op.redo])).2.df_inventory =
          (runOps initState
            [Op.inbound "widget" "s" "o" "r" 10 none 0,
             Op.outbound "widget" "r" "o" "r" 4 none 1,
             Op.undo, Op.redo]).df_inventory ∧
        (add_outbound item sr operator remarks q img now
            (runOps initState
              [Op.inbound "widget" "s" "o" "r" 10 none 0,
               Op.outbound "widget" "r" "o" "r" 4 none 1,
               Op.undo, Op.redo])).2.df_transactions =
          (runOps initState
            [Op.inbound "widget" "s" "o" "r" 10 none 0,
             Op.outbound "widget" "r" "o" "r" 4 none 1,
             Op.undo, Op.redo]).df_transactions)) :=
  ⟨by decide, C6_reachable_stock_nonneg _ (by decide)⟩

/-- C7 (confirmed): after N ≥ 1 committed transactions starting from the
empty initial state, undo succeeds, the resulting journal has N−1
entries, the resulting journal and stock table are exactly those of the
state before the N-th transaction, and the redo-stack depth grows by 1. -/
theorem C7_undo_after_commits (ops : List Op) (hne : ops ≠ [])
    (ht : ∀ op ∈ ops, op.isTxn = true)
    (hc : allCommitted initState ops = true) :
    (undo_action (runOps initState ops)).1 = Msg.undoOk ∧
    (undo_action (runOps initState ops)).2.df_transactions.length =
        ops.length - 1 ∧
    (undo_action (runOps initState ops)).2.df_transactions =
        (runOps initState ops.dropLast).df_transactions ∧
    (undo_action (runOps initState ops)).2.df_inventory =
        (runOps initState ops.dropLast).df_inventory ∧
    (undo_action (runOps initState ops)).2.redo_stack.length =
        (runOps initState ops).redo_stack.length + 1 := by
  obtain ⟨l, a, rfl⟩ :
      ∃ l a, ops = l ++ [a] := by
    rcases List.eq_nil_or_concat ops with h | ⟨l, a, h⟩
    · exact absurd h hne
    · exact ⟨l, a, by simpa [List.concat_eq_append] using h⟩
  have ha : a.isTxn = true := ht a (by simp)
  have htop := runOps_undo_top initState l a ha
  rw [undo_action_cons (runOps initState (l ++ [a])) _ _ htop]
  have hdrop : (l ++ [a]).dropLast = l := by
    simp
  rw [hdrop]
  have hcl : allCommitted initState l = true := by
    rw [allCommitted_append] at hc
    simp only [Bool.and_eq_true] at hc
    exact hc.1
  have hlen := journal_len_runOps l initState
    (fun o ho => ht o (by simp [ho])) hcl
  refine ⟨rfl, ?_, rfl, rfl, by simp⟩
  rw [hlen]
  simp [initState]

theorem C7_undo_after_commits_witness :
    (([Op.inbound "widget" "s" "o" "r" 10 none 0,
       Op.outbound "widget" "r" "o" "r" 4 none 1] : List Op) ≠ [] ∧
      (∀ op ∈ [Op.inbound "widget" "s" "o" "r" 10 none 0,
               Op.outbound "widget" "r" "o" "r" 4 none 1],
        op.isTxn = true) ∧
      allCommitted initState
        [Op.inbound "widget" "s" "o" "r" 10 none 0,
         Op.outbound "widget" "r" "o" "r" 4 none 1] = true) ∧
    ((undo_action (runOps initState
        [Op.inbound "widget" "s" "o" "r" 10 none 0,
         Op.outbound "widget" "r" "o" "r" 4 none 1])).1 = Msg.undoOk ∧
      (undo_action (runOps initState
        [Op.inbound "widget" "s" "o" "r" 10 none 0,
         Op.outbound "widget" "r" "o" "r" 4 none 1])).2.df_transactions.length =
        ([Op.inbound "widget" "s" "o" "r" 10 none 0,
          Op.outbound "widget" "r" "o" "r" 4 none 1] : List Op).length - 1 ∧
      (undo_action (runOps initState
        [Op.inbound "widget" "s" "o" "r" 10 none 0,
         Op.outbound "widget" "r" "o" "r" 4 none 1])).2.df_transactions =
        (runOps initState
          ([Op.inbound "widget" "s" "o" "r" 10 none 0,
            Op.outbound "widget" "r" "o" "r" 4 none 1] : List Op).dropLast).df_transactions ∧
      (undo_action (runOps initState
        [Op.inbound "widget" "s" "o" "r" 10 none 0,
         Op.outbound "widget" "r" "o" "r" 4 none 1])).2.df_inventory =
        (runOps initState
          ([Op.inbound "widget" "s" "o" "r" 10 none 0,
            Op.outbound "widget" "r" "o" "r" 4 none 1] : List Op).dropLast).df_inventory ∧
      (undo_action (runOps initState
        [Op.inbound "widget" "s" "o" "r" 10 none 0,
         Op.outbound "widget" "r" "o" "r" 4 none 1])).2.redo_stack.length =
        (runOps initState
          [Op.inbound "widget" "s" "o" "r" 10 none 0,
           Op.outbound "widget" "r" "o" "r" 4 none 1]).redo_stack.length + 1) :=
  ⟨⟨by decide, by decide, by decide⟩,
    C7_undo_after_commits _ (by decide) (by decide) (by decide)⟩

/-- C8 (confirmed): from any state with a non-empty undo stack, undo
followed immediately by redo succeeds and restores the current journal
and stock table exactly. -/
theorem C8_undo_redo_roundtrip (s : WMSState) (h : s.undo_stack ≠ []) :
    (redo_action (undo_action s).2).1 = Msg.redoOk ∧
    (redo_action (undo_action s).2).2.df_transactions = s.df_transactions ∧
    (redo_action (undo_action s).2).2.df_inventory = s.df_inventory := by
  obtain ⟨x, rest, hx⟩ := List.exists_cons_of_ne_nil h
  rw [undo_action_cons s x rest hx]
  rw [redo_action_cons _ (s.df_transactions, s.df_inventory) s.redo_stack rfl]
  exact ⟨rfl, rfl, rfl⟩

theorem C8_undo_redo_roundtrip_witness :
    ((add_inbound "w" "s" "o" "r" 5 none 0 initState).2.undo_stack ≠ []) ∧
    ((redo_action (undo_action
        (add_inbound "w" "s" "o" "r" 5 none 0 initState).2).2).1 = Msg.redoOk ∧
      (redo_action (undo_action
        (add_inbound "w" "s" "o" "r" 5 none 0 initState).2).2).2.df_transactions =
        (add_inbound "w" "s" "o" "r" 5 none 0 initState).2.df_transactions ∧
      (redo_action (undo_action
        (add_inbound "w" "s" "o" "r" 5 none 0 initState).2).2).2.df_inventory =
        (add_inbound "w" "s" "o" "r" 5 none 0 initState).2.df_inventory) :=
  ⟨by decide,
    C8_undo_redo_roundtrip (add_inbound "w" "s" "o" "r" 5 none 0 initState).2
      (by decide)⟩

/-- C9 (confirmed): the state immediately after any committed inbound or
outbound transaction has an empty redo stack, and a subsequent redo fails
with the no-history message, leaving the state unchanged. -/
theorem C9_commit_clears_redo (s : WMSState) (op : Op) (ht : op.isTxn = true)
    (_hok : (stepOp s op).1.isOk = true) :
    (stepOp s op).2.redo_stack = [] ∧
    (redo_action (stepOp s op).2).1 = Msg.noRedoHistory ∧
    (redo_action (stepOp s op).2).2 = (stepOp s op).2 := by
  have h2 := (stepOp_txn_stacks s op ht).2
  refine ⟨h2, ?_, ?_⟩ <;> simp [redo_action, h2]

theorem C9_commit_clears_redo_witness :
    ((Op.inbound "w" "s" "o" "r" 5 none 0).isTxn = true ∧
      (stepOp initState (Op.inbound "w" "s" "o" "r" 5 none 0)).1.isOk = true) ∧
    ((stepOp initState (Op.inbound "w" "s" "o" "r" 5 none 0)).2.redo_stack = [] ∧
      (redo_action (stepOp initState
          (Op.inbound "w" "s" "o" "r" 5 none 0)).2).1 = Msg.noRedoHistory ∧
      (redo_action (stepOp initState
          (Op.inbound "w" "s" "o" "r" 5 none 0)).2).2 =
        (stepOp initState (Op.inbound "w" "s" "o" "r" 5 none 0)).2) :=
  ⟨⟨by decide, by decide⟩,
    C9_commit_clears_redo initState (Op.inbound "w" "s" "o" "r" 5 none 0)
      (by decide) (by decide)⟩

/-- C10 (confirmed, implicit claim): the ledger apply with direction
inbound (入库) always succeeds, for every item, every integer quantity and
every stock table — whether or not the item already has a row — so the
error return on the inbound path of the coordinator is unreachable; both
failure results of `update_inventory` arise only on the outbound path. -/
theorem C10_inbound_apply_total (item : String) (q : Int) (now : Nat)
    (inv : List InvEntry) :
    (update_inventory item "入库" q now inv).1 = (true, UpdateMsg.updated) :=
  update_inventory_inbound_ok item q now inv

end WMS
